import Mathlib

/-!
Shallow embedding of the UMKM business-prediction backend
(`main.py`, `schemas.py`, and the spec-described persistence gateway).

Python floats are modelled as exact rationals (ℚ), Python ints as ℤ,
dicts as association lists of string keys to a BSON-style value type,
and the MongoDB store as a map from collection names to lists of
documents together with a counter producing fresh object ids.
-/

/-- Calendar date, as Python `datetime.date`. -/
structure PyDate where
  year : ℕ
  month : ℕ
  day : ℕ
deriving DecidableEq

/-- Zero-pad a numeral to two digits, as in ISO-8601 date fields. -/
def pad2 (n : ℕ) : String :=
  if n < 10 then "0" ++ toString n else toString n

/-- Zero-pad a numeral to four digits, as in ISO-8601 year fields. -/
def pad4 (n : ℕ) : String :=
  if n < 10 then "000" ++ toString n
  else if n < 100 then "00" ++ toString n
  else if n < 1000 then "0" ++ toString n
  else toString n

/-- Python `date.isoformat()`: the `YYYY-MM-DD` rendering. -/
def PyDate.isoformat (d : PyDate) : String :=
  pad4 d.year ++ "-" ++ pad2 d.month ++ "-" ++ pad2 d.day

/-- Timestamp, as Python `datetime.datetime` (seconds precision). -/
structure PyDatetime where
  date : PyDate
  hour : ℕ
  minute : ℕ
  second : ℕ
deriving DecidableEq

/-- Python `datetime.isoformat()`: the `YYYY-MM-DDTHH:MM:SS` rendering. -/
def PyDatetime.isoformat (t : PyDatetime) : String :=
  t.date.isoformat ++ "T" ++ pad2 t.hour ++ ":" ++ pad2 t.minute ++ ":" ++ pad2 t.second

/-- Values stored in a document: the BSON-style dynamic values the app
manipulates (None, strings, ints, floats-as-rationals, dates, datetimes,
and persistence-assigned ObjectIds). -/
inductive Value where
  | vNull
  | vStr (s : String)
  | vInt (n : ℤ)
  | vRat (q : ℚ)
  | vDate (d : PyDate)
  | vDatetime (t : PyDatetime)
  | vObjectId (n : ℕ)
deriving DecidableEq

/-- Python `str()` applied to a stored value. The exact rendering of
non-string values is immaterial to the endpoint contracts; what matters
is that the result is a string. -/
def pyStr : Value → String
  | .vNull => "None"
  | .vStr s => s
  | .vInt n => toString n
  | .vRat q => toString q
  | .vDate d => d.isoformat
  | .vDatetime t => t.isoformat
  | .vObjectId n => toString n

/-- A document (Python dict with string keys), as an association list. -/
abbrev Doc := List (String × Value)

/-- Dict lookup `d[k]` (first binding of the key). -/
def getKey : Doc → String → Option Value
  | [], _ => none
  | p :: t, k => if p.1 == k then some p.2 else getKey t k

/-- Dict membership test `k in d`. -/
def hasKey : Doc → String → Bool
  | [], _ => false
  | p :: t, k => p.1 == k || hasKey t k

/-- Dict assignment `d[k] = v`: replace the binding in place if the key
is present, append a new binding otherwise. -/
def setKey : Doc → String → Value → Doc
  | [], k, v => [(k, v)]
  | p :: t, k, v => if p.1 == k then (k, v) :: t else p :: setKey t k v

/-- Python truncation `int(q)`: round toward zero. -/
def pyInt (q : ℚ) : ℤ :=
  if 0 ≤ q then ⌊q⌋ else ⌈q⌉

/-- `baseline_predict` from `main.py` (lines 93-97): a fixed linear
formula; Python `int(...)` truncates toward zero, and both outputs are
clamped at zero by `max`. -/
def baseline_predict (sales : ℚ) (orders : ℤ) (marketing_spend : ℚ) : ℚ × ℤ :=
  let predicted_sales := sales * 1.05 + marketing_spend * 0.5
  let predicted_orders := pyInt ((orders : ℚ) * 1.03 + marketing_spend * 0.02)
  (max 0 predicted_sales, max 0 predicted_orders)

/-- An HTTP error response (FastAPI `HTTPException` or a pydantic
validation failure, which FastAPI surfaces as status 422). -/
structure HTTPError where
  status_code : ℕ
  detail : String
deriving DecidableEq

/-- The document store: named collections of documents plus a counter
yielding fresh ObjectIds at insert time. -/
structure Store where
  colls : List (String × List Doc)
  nextId : ℕ
deriving DecidableEq

/-- The documents currently held by a collection (empty if absent). -/
def collDocs (st : Store) (c : String) : List Doc :=
  ((st.colls.find? (fun p => p.1 == c)).map (fun p => p.2)).getD []

/-- Replace or create a named collection. -/
def setColl (cs : List (String × List Doc)) (c : String) (docs : List Doc) :
    List (String × List Doc) :=
  if cs.any (fun p => p.1 == c) then cs.map (fun p => if p.1 == c then (c, docs) else p)
  else cs ++ [(c, docs)]

/-- Modelled from the spec: `create_document` lives in `database.py`,
which is not under src/. Per spec section 4.1 it inserts a validated
record into the named collection and returns the newly assigned opaque
identifier as a string; the identifier is assigned by the persistence
layer at insert time. -/
def create_document (c : String) (doc : Doc) (st : Store) : String × Store :=
  let oid := st.nextId
  let stored := setKey doc "_id" (Value.vObjectId oid)
  (toString oid, ⟨setColl st.colls c (collDocs st c ++ [stored]), oid + 1⟩)

/-- Modelled from the spec: `get_documents` lives in `database.py`,
which is not under src/. Per spec section 4.1 it returns records from
the collection in storage order, optionally capped at `limit` entries
(`limit=None` means no cap). -/
def get_documents (c : String) (limit : Option ℕ) (st : Store) : List Doc :=
  match limit with
  | none => collDocs st c
  | some n => (collDocs st c).take n

/-- The process-wide database handle: the handlers only test it against
`None`, so its payload is irrelevant. -/
abbrev DBConn := Unit

/-- Request model `MetricIn` from `main.py` (lines 61-65): four typed
fields, with no `ge=0` bound declared on any of them. -/
structure MetricIn where
  period : PyDate
  sales : ℚ
  orders : ℤ
  marketing_spend : ℚ
deriving DecidableEq

/-- Request model `PredictIn` from `main.py` (lines 68-72): identical
shape to `MetricIn`, again with no `ge=0` bound. -/
structure PredictIn where
  period : PyDate
  sales : ℚ
  orders : ℤ
  marketing_spend : ℚ
deriving DecidableEq

/-- Request model `ProfileIn` from `main.py` (lines 75-81). -/
structure ProfileIn where
  owner_name : String
  business_name : String
  email : Option String
  phone : Option String
  address : Option String
  industry : Option String
deriving DecidableEq

/-- Request model `ReportIn` from `main.py` (lines 84-87): `status`
defaults to "open". -/
structure ReportIn where
  title : String
  notes : Option String
  status : String
deriving DecidableEq

/-- A raw JSON body for the metric/predict endpoints: each field either
present (with its parsed typed value) or absent. -/
structure RawMetricBody where
  period : Option PyDate
  sales : Option ℚ
  orders : Option ℤ
  marketing_spend : Option ℚ
deriving DecidableEq

/-- FastAPI body validation against `MetricIn`: pydantic enforces
presence and type of each field, nothing more — `MetricIn` declares no
numeric bounds, so any sign of `sales`, `orders`, `marketing_spend` is
accepted. A missing field yields a 422 validation error. -/
def MetricIn.validate (r : RawMetricBody) : Except HTTPError MetricIn :=
  match r.period, r.sales, r.orders, r.marketing_spend with
  | some p, some s, some o, some m => .ok ⟨p, s, o, m⟩
  | _, _, _, _ => .error ⟨422, "field required"⟩

/-- FastAPI body validation against `PredictIn`: same as `MetricIn`,
presence and type only, no numeric bounds. -/
def PredictIn.validate (r : RawMetricBody) : Except HTTPError PredictIn :=
  match r.period, r.sales, r.orders, r.marketing_spend with
  | some p, some s, some o, some m => .ok ⟨p, s, o, m⟩
  | _, _, _, _ => .error ⟨422, "field required"⟩

namespace Schemas

/-- `Metric` from `schemas.py` (lines 32-40): the collection schema the
repository documents as its validation model, declaring `ge=0` on
`sales`, `orders` and `marketing_spend`. -/
structure Metric where
  period : PyDate
  sales : ℚ
  orders : ℤ
  marketing_spend : ℚ
deriving DecidableEq

/-- Validation against `schemas.Metric`: presence, type, and the
declared `ge=0` bounds on the three numeric fields. -/
def Metric.validate (r : RawMetricBody) : Except HTTPError Metric :=
  match r.period, r.sales, r.orders, r.marketing_spend with
  | some p, some s, some o, some m =>
      if s < 0 then .error ⟨422, "sales must be greater than or equal to 0"⟩
      else if o < 0 then .error ⟨422, "orders must be greater than or equal to 0"⟩
      else if m < 0 then .error ⟨422, "marketing_spend must be greater than or equal to 0"⟩
      else .ok ⟨p, s, o, m⟩
  | _, _, _, _ => .error ⟨422, "field required"⟩

end Schemas

/-- `payload.model_dump()` for a `MetricIn`. -/
def MetricIn.model_dump (p : MetricIn) : Doc :=
  [("period", .vDate p.period), ("sales", .vRat p.sales),
   ("orders", .vInt p.orders), ("marketing_spend", .vRat p.marketing_spend)]

/-- `payload.model_dump()` for a `PredictIn`. -/
def PredictIn.model_dump (p : PredictIn) : Doc :=
  [("period", .vDate p.period), ("sales", .vRat p.sales),
   ("orders", .vInt p.orders), ("marketing_spend", .vRat p.marketing_spend)]

/-- Render an optional string field as a stored value (`None` → null). -/
def optStr : Option String → Value
  | none => .vNull
  | some s => .vStr s

/-- `payload.model_dump()` for a `ProfileIn`. -/
def ProfileIn.model_dump (p : ProfileIn) : Doc :=
  [("owner_name", .vStr p.owner_name), ("business_name", .vStr p.business_name),
   ("email", optStr p.email), ("phone", optStr p.phone),
   ("address", optStr p.address), ("industry", optStr p.industry)]

/-- `payload.model_dump()` for a `ReportIn`. -/
def ReportIn.model_dump (p : ReportIn) : Doc :=
  [("title", .vStr p.title), ("notes", optStr p.notes), ("status", .vStr p.status)]

/-- The fixed 500 error every handler raises when the database handle is
absent (`main.py`, e.g. lines 103-104). -/
def dbNotConfigured : HTTPError := ⟨500, "Database not configured"⟩

/-- `create_profile` from `main.py` (lines 101-106): check the handle,
insert the dumped payload into "profile", answer id and message. -/
def create_profile (db : Option DBConn) (payload : ProfileIn) (st : Store) :
    Except HTTPError (Doc × Store) :=
  if db.isNone then .error dbNotConfigured
  else
    let r := create_document "profile" payload.model_dump st
    .ok ([("id", .vStr r.1), ("message", .vStr "Profile created")], r.2)

/-- The per-record shaping the GET handlers apply (`main.py` lines
115-116, 134-135, 168-169): `i["_id"] = str(i["_id"]) if "_id" in i
else None`. -/
def fixId (i : Doc) : Doc :=
  match getKey i "_id" with
  | some v => setKey i "_id" (.vStr (pyStr v))
  | none => setKey i "_id" .vNull

/-- `get_profiles` from `main.py` (lines 109-117). -/
def get_profiles (db : Option DBConn) (st : Store) : Except HTTPError (List Doc) :=
  if db.isNone then .error dbNotConfigured
  else .ok ((get_documents "profile" none st).map fixId)

/-- `create_metric` from `main.py` (lines 121-126). -/
def create_metric (db : Option DBConn) (payload : MetricIn) (st : Store) :
    Except HTTPError (Doc × Store) :=
  if db.isNone then .error dbNotConfigured
  else
    let r := create_document "metric" payload.model_dump st
    .ok ([("id", .vStr r.1), ("message", .vStr "Metric saved")], r.2)

/-- The full POST /api/metrics pipeline: FastAPI validates the raw body
against `MetricIn` (a failure is a 422 answered before the handler
runs), then the handler runs. -/
def create_metric_route (db : Option DBConn) (raw : RawMetricBody) (st : Store) :
    Except HTTPError (Doc × Store) :=
  match MetricIn.validate raw with
  | .error e => .error e
  | .ok payload => create_metric db payload st

/-- `isinstance(v, (datetime, date))` for a stored value. -/
def isDateLike : Value → Bool
  | .vDate _ => true
  | .vDatetime _ => true
  | _ => false

/-- `v.isoformat()` on a date-like stored value; other values are
returned unchanged (the handler never calls it on them). -/
def isoformatValue : Value → Value
  | .vDate d => .vStr d.isoformat
  | .vDatetime t => .vStr t.isoformat
  | v => v

/-- The per-record shaping of GET /api/metrics (`main.py` lines
134-138): stringify the id, then ISO-format `period` only when it is a
date or datetime instance. -/
def metricRow (i : Doc) : Doc :=
  let i₁ := fixId i
  match getKey i₁ "period" with
  | some v => if isDateLike v then setKey i₁ "period" (isoformatValue v) else i₁
  | none => i₁

/-- The default of the `limit` query parameter in `list_metrics` and
`list_reports` (`main.py` lines 130, 164): an omitted `limit` means 50. -/
def defaultLimit : Option ℕ := some 50

/-- `list_metrics` from `main.py` (lines 129-139). -/
def list_metrics (db : Option DBConn) (limit : Option ℕ) (st : Store) :
    Except HTTPError (List Doc) :=
  if db.isNone then .error dbNotConfigured
  else .ok ((get_documents "metric" limit st).map metricRow)

/-- `predict` from `main.py` (lines 143-151): run `baseline_predict`,
store input and output as one "prediction" record, answer id and the
two predictions. -/
def predict (db : Option DBConn) (payload : PredictIn) (st : Store) :
    Except HTTPError (Doc × Store) :=
  if db.isNone then .error dbNotConfigured
  else
    let p := baseline_predict payload.sales payload.orders payload.marketing_spend
    let data := setKey (setKey payload.model_dump "predicted_sales" (.vRat p.1))
      "predicted_orders" (.vInt p.2)
    let r := create_document "prediction" data st
    .ok ([("id", .vStr r.1), ("predicted_sales", .vRat p.1),
          ("predicted_orders", .vInt p.2)], r.2)

/-- The full POST /api/predict pipeline: body validation against
`PredictIn`, then the handler. -/
def predict_route (db : Option DBConn) (raw : RawMetricBody) (st : Store) :
    Except HTTPError (Doc × Store) :=
  match PredictIn.validate raw with
  | .error e => .error e
  | .ok payload => predict db payload st

/-- `create_report` from `main.py` (lines 155-160). -/
def create_report (db : Option DBConn) (payload : ReportIn) (st : Store) :
    Except HTTPError (Doc × Store) :=
  if db.isNone then .error dbNotConfigured
  else
    let r := create_document "report" payload.model_dump st
    .ok ([("id", .vStr r.1), ("message", .vStr "Report created")], r.2)

/-- `list_reports` from `main.py` (lines 163-170). -/
def list_reports (db : Option DBConn) (limit : Option ℕ) (st : Store) :
    Except HTTPError (List Doc) :=
  if db.isNone then .error dbNotConfigured
  else .ok ((get_documents "report" limit st).map fixId)

/-- The database handle as GET /test sees it: its optional `name`
attribute and a `list_collection_names()` probe that either yields the
collection names or raises (the raised exception rendered by `str`). -/
structure DBHandle where
  name : Option String
  list_collection_names : Except String (List String)

/-- The diagnostic record GET /test answers. `database_url` and
`database_name` are strings by the end of the handler (lines 54-55
overwrite the initial `None`s), so they are modelled as strings. -/
structure DiagResponse where
  backend : String
  database : String
  database_url : String
  database_name : String
  connection_status : String
  collections : List String
deriving DecidableEq

/-- Python `s[:50]`. -/
def strTrunc50 (s : String) : String := String.mk (s.data.take 50)

/-- `test_database` from `main.py` (lines 26-57): build the diagnostic
record, probing the handle under local exception guards; the
`list_collection_names` probe failure degrades to an error-description
string whose exception text is truncated to 50 characters, and the
collections list is capped at 10 names. `urlSet`/`nameSet` model the
presence of the `DATABASE_URL`/`DATABASE_NAME` environment variables,
read at lines 54-55. In this embedding the handler is a total function,
matching the source's property of never raising. -/
def test_database (db : Option DBHandle) (urlSet nameSet : Bool) : DiagResponse :=
  let base : DiagResponse :=
    { backend := "✅ Running", database := "❌ Not Available",
      database_url := "", database_name := "",
      connection_status := "Not Connected", collections := [] }
  let probed : DiagResponse :=
    match db with
    | some h =>
        let r1 := { base with
          database := "✅ Available",
          database_name := h.name.getD "✅ Connected",
          connection_status := "Connected" }
        match h.list_collection_names with
        | .ok cs => { r1 with
            collections := cs.take 10,
            database := "✅ Connected & Working" }
        | .error e => { r1 with
            database := "⚠️  Connected but Error: " ++ strTrunc50 e }
    | none => { base with database := "⚠️  Available but not initialized" }
  { probed with
    database_url := if urlSet then "✅ Set" else "❌ Not Set",
    database_name := if nameSet then "✅ Set" else "❌ Not Set" }


/-! ## Lemmas about truncation vs floor -/

theorem max_zero_pyInt_eq_floor (q : ℚ) : max 0 (pyInt q) = max 0 ⌊q⌋ := by
  unfold pyInt
  split
  · rfl
  · rename_i h
    have hq : q ≤ 0 := le_of_not_le h
    have h1 : ⌈q⌉ ≤ 0 := Int.ceil_le.mpr (by exact_mod_cast hq)
    have h2 : ⌊q⌋ ≤ 0 := Int.floor_nonpos hq
    rw [max_eq_left h1, max_eq_left h2]

theorem pyInt_mono {x y : ℚ} (h : x ≤ y) : pyInt x ≤ pyInt y := by
  unfold pyInt
  split <;> split
  · exact Int.floor_mono h
  · rename_i hx hy; exact absurd (le_trans hx h) hy
  · rename_i hx hy
    have h1 : ⌈x⌉ ≤ 0 := Int.ceil_le.mpr (by exact_mod_cast le_of_not_le hx)
    exact le_trans h1 (Int.floor_nonneg.mpr hy)
  · exact Int.ceil_mono h

/-- C2: for every finite numeric input, `baseline_predict` returns
`predicted_sales = max(0, sales * 1.05 + marketing_spend * 0.5)` and
`predicted_orders = max(0, floor(orders * 1.03 + marketing_spend * 0.02))`.
(The source truncates with Python `int`, but after the `max 0` clamp
truncation and floor agree.) -/
theorem baseline_predict_matches_spec (s : ℚ) (o : ℤ) (m : ℚ) :
    baseline_predict s o m =
      (max 0 (s * 1.05 + m * 0.5), max 0 ⌊(o : ℚ) * 1.03 + m * 0.02⌋) := by
  simp only [baseline_predict]
  rw [max_zero_pyInt_eq_floor]

/-- C3: both outputs of `baseline_predict` are nonnegative for every
input, including negative ones. -/
theorem baseline_predict_nonneg (s : ℚ) (o : ℤ) (m : ℚ) :
    0 ≤ (baseline_predict s o m).1 ∧ 0 ≤ (baseline_predict s o m).2 :=
  ⟨le_max_left 0 _, le_max_left 0 _⟩

/-- C8: `baseline_predict` is monotone non-decreasing in each argument:
in `sales` for `predicted_sales`, in `marketing_spend` for both outputs,
and in `orders` for `predicted_orders`. -/
theorem baseline_predict_monotone :
    (∀ s₁ s₂ o m, s₁ ≤ s₂ →
      (baseline_predict s₁ o m).1 ≤ (baseline_predict s₂ o m).1) ∧
    (∀ s o m₁ m₂, m₁ ≤ m₂ →
      (baseline_predict s o m₁).1 ≤ (baseline_predict s o m₂).1 ∧
      (baseline_predict s o m₁).2 ≤ (baseline_predict s o m₂).2) ∧
    (∀ s o₁ o₂ m, o₁ ≤ o₂ →
      (baseline_predict s o₁ m).2 ≤ (baseline_predict s o₂ m).2) := by
  refine ⟨?_, ?_, ?_⟩
  · intro s₁ s₂ o m h
    simp only [baseline_predict]
    exact max_le_max le_rfl (by nlinarith)
  · intro s o m₁ m₂ h
    refine ⟨?_, ?_⟩
    · simp only [baseline_predict]
      exact max_le_max le_rfl (by nlinarith)
    · simp only [baseline_predict]
      exact max_le_max le_rfl (pyInt_mono (by nlinarith))
  · intro s o₁ o₂ m h
    simp only [baseline_predict]
    have ho : (o₁ : ℚ) ≤ o₂ := by exact_mod_cast h
    exact max_le_max le_rfl (pyInt_mono (by nlinarith))

/-- Witness for C8 at concrete inputs. -/
theorem baseline_predict_monotone_witness :
    (baseline_predict 1 2 3).1 ≤ (baseline_predict 2 2 3).1 ∧
    (baseline_predict 1 2 3).1 ≤ (baseline_predict 1 2 4).1 ∧
    (baseline_predict 1 2 3).2 ≤ (baseline_predict 1 2 4).2 ∧
    (baseline_predict 1 2 3).2 ≤ (baseline_predict 1 5 3).2 :=
  ⟨baseline_predict_monotone.1 1 2 2 3 (by norm_num),
   (baseline_predict_monotone.2.1 1 2 3 4 (by norm_num)).1,
   (baseline_predict_monotone.2.1 1 2 3 4 (by norm_num)).2,
   baseline_predict_monotone.2.2 1 2 5 3 (by norm_num)⟩

/-! ## Lemmas about dictionary operations -/

theorem getKey_setKey_self (d : Doc) (k : String) (v : Value) :
    getKey (setKey d k v) k = some v := by
  induction d with
  | nil => simp [setKey, getKey]
  | cons p t ih =>
    cases hb : p.1 == k
    · simp [setKey, getKey, hb, ih]
    · simp [setKey, getKey, hb]

theorem getKey_setKey_other (d : Doc) (k k' : String) (v : Value) (h : k' ≠ k) :
    getKey (setKey d k v) k' = getKey d k' := by
  have hkk' : (k == k') = false := beq_eq_false_iff_ne.mpr (Ne.symm h)
  induction d with
  | nil => simp [setKey, getKey, hkk']
  | cons p t ih =>
    cases hb : p.1 == k
    · simp [setKey, getKey, hb, ih]
    · have hp1 : p.1 = k := eq_of_beq hb
      have hp' : (p.1 == k') = false := by rw [hp1]; exact hkk'
      simp [setKey, getKey, hb, hp', hkk']

theorem hasKey_eq_isSome_getKey (d : Doc) (k : String) :
    hasKey d k = (getKey d k).isSome := by
  induction d with
  | nil => rfl
  | cons p t ih =>
    cases hb : p.1 == k
    · simp [hasKey, getKey, hb, ih]
    · simp [hasKey, getKey, hb]

theorem getKey_fixId_id (i : Doc) :
    getKey (fixId i) "_id" =
      some (match getKey i "_id" with
            | some v => Value.vStr (pyStr v)
            | none => Value.vNull) := by
  unfold fixId
  cases h : getKey i "_id" <;> simp [h, getKey_setKey_self]

theorem getKey_fixId_other (i : Doc) (k : String) (h : k ≠ "_id") :
    getKey (fixId i) k = getKey i k := by
  unfold fixId
  cases hv : getKey i "_id"
  · exact getKey_setKey_other i "_id" k Value.vNull h
  · exact getKey_setKey_other i "_id" k _ h

theorem getKey_metricRow_id (i : Doc) :
    getKey (metricRow i) "_id" = getKey (fixId i) "_id" := by
  unfold metricRow
  cases hp : getKey (fixId i) "period"
  · simp [hp]
  · rename_i v
    by_cases hd : isDateLike v
    · simp [hp, hd, getKey_setKey_other _ _ _ _ (by decide : "_id" ≠ "period")]
    · simp [hp, hd]

/-! ## Endpoint-level theorems -/

/-- C4: every /api handler checks the database handle before any other
work: with the handle unavailable it answers the fixed 500 error
"Database not configured", and since the error result carries no
updated store, no record is inserted into any collection. -/
theorem handlers_fail_fast_without_db (pPro : ProfileIn) (pMet : MetricIn)
    (pPre : PredictIn) (pRep : ReportIn) (limit : Option ℕ) (st : Store) :
    create_profile none pPro st = .error dbNotConfigured ∧
    get_profiles none st = .error dbNotConfigured ∧
    create_metric none pMet st = .error dbNotConfigured ∧
    list_metrics none limit st = .error dbNotConfigured ∧
    predict none pPre st = .error dbNotConfigured ∧
    create_report none pRep st = .error dbNotConfigured ∧
    list_reports none limit st = .error dbNotConfigured :=
  ⟨rfl, rfl, rfl, rfl, rfl, rfl, rfl⟩

/-- C5: GET /api/metrics and GET /api/reports answer the empty list for
`limit=0`, and at most 50 records when `limit` is omitted (the route
default is 50). -/
theorem list_limit_semantics (st : Store) :
    list_metrics (some ()) (some 0) st = .ok [] ∧
    list_reports (some ()) (some 0) st = .ok [] ∧
    (∃ l, list_metrics (some ()) defaultLimit st = .ok l ∧ l.length ≤ 50) ∧
    (∃ l, list_reports (some ()) defaultLimit st = .ok l ∧ l.length ≤ 50) := by
  refine ⟨rfl, rfl, ⟨_, rfl, ?_⟩, ⟨_, rfl, ?_⟩⟩
  · rw [List.length_map]
    show ((collDocs st "metric").take 50).length ≤ 50
    rw [List.length_take]
    exact min_le_left _ _
  · rw [List.length_map]
    show ((collDocs st "report").take 50).length ≤ 50
    rw [List.length_take]
    exact min_le_left _ _

/-- C6: GET /test is a total function of the storage state (in the
source, every probe is guarded, so the handler never raises): its
`collections` field holds at most 10 names, and when the
`list_collection_names` probe fails, the `database` field is the
error-description string carrying the exception text truncated to at
most 50 characters. -/
theorem test_database_robust (db : Option DBHandle) (urlSet nameSet : Bool) :
    (test_database db urlSet nameSet).collections.length ≤ 10 ∧
    (∀ h e, db = some h → h.list_collection_names = .error e →
      (test_database db urlSet nameSet).database =
        "⚠️  Connected but Error: " ++ strTrunc50 e ∧
      (strTrunc50 e).length ≤ 50) := by
  constructor
  · cases db with
    | none => simp [test_database]
    | some h =>
      cases hc : h.list_collection_names with
      | ok cs =>
        simp [test_database, hc, List.length_take]
      | error e => simp [test_database, hc]
  · intro h e hdb he
    subst hdb
    refine ⟨by simp [test_database, he], ?_⟩
    have hl : (strTrunc50 e).length = (e.data.take 50).length := rfl
    rw [hl, List.length_take]
    exact min_le_left _ _

/-- Witness for C6 at a concrete handle whose probe raises. -/
theorem test_database_robust_witness :
    (test_database (some ⟨none, .error "boom"⟩) true false).collections.length ≤ 10 ∧
    ((test_database (some ⟨none, .error "boom"⟩) true false).database =
        "⚠️  Connected but Error: " ++ strTrunc50 "boom" ∧
      (strTrunc50 "boom").length ≤ 50) :=
  ⟨(test_database_robust (some ⟨none, .error "boom"⟩) true false).1,
   (test_database_robust (some ⟨none, .error "boom"⟩) true false).2
     ⟨none, .error "boom"⟩ "boom" rfl rfl⟩

/-- C7: whenever a stored record carries a persistence-assigned `_id`
value — of any native representation — the per-record shaping applied
by GET /api/profile and GET /api/reports (`fixId`) and by
GET /api/metrics (`metricRow`) emits that id as a string. -/
theorem ids_emitted_as_strings (i : Doc) (v : Value)
    (h : getKey i "_id" = some v) :
    getKey (fixId i) "_id" = some (.vStr (pyStr v)) ∧
    getKey (metricRow i) "_id" = some (.vStr (pyStr v)) := by
  have h1 : getKey (fixId i) "_id" = some (.vStr (pyStr v)) := by
    rw [getKey_fixId_id, h]
  exact ⟨h1, by rw [getKey_metricRow_id, h1]⟩

/-- Witness for C7 at a concrete record holding an ObjectId. -/
theorem ids_emitted_as_strings_witness :
    getKey (fixId [("_id", Value.vObjectId 7)]) "_id" =
      some (.vStr (pyStr (Value.vObjectId 7))) ∧
    getKey (metricRow [("_id", Value.vObjectId 7)]) "_id" =
      some (.vStr (pyStr (Value.vObjectId 7))) :=
  ids_emitted_as_strings [("_id", Value.vObjectId 7)] (Value.vObjectId 7) (by decide)

/-- C9: every record emitted by the three list endpoints contains the
"_id" key: a stored record lacking "_id" gets the key added with value
null (None), rather than omitted or turned into a string. -/
theorem id_key_always_present (i : Doc) :
    hasKey (fixId i) "_id" = true ∧
    hasKey (metricRow i) "_id" = true ∧
    (getKey i "_id" = none →
      getKey (fixId i) "_id" = some .vNull ∧
      getKey (metricRow i) "_id" = some .vNull) := by
  refine ⟨?_, ?_, ?_⟩
  · rw [hasKey_eq_isSome_getKey, getKey_fixId_id]; rfl
  · rw [hasKey_eq_isSome_getKey, getKey_metricRow_id, getKey_fixId_id]; rfl
  · intro h
    have e1 : getKey (fixId i) "_id" = some .vNull := by
      rw [getKey_fixId_id, h]
    exact ⟨e1, by rw [getKey_metricRow_id, e1]⟩

/-- Witness for C9 at the record with no fields. -/
theorem id_key_always_present_witness :
    hasKey (fixId []) "_id" = true ∧
    hasKey (metricRow []) "_id" = true ∧
    (getKey (fixId []) "_id" = some .vNull ∧
      getKey (metricRow []) "_id" = some .vNull) :=
  ⟨(id_key_always_present []).1, (id_key_always_present []).2.1,
   (id_key_always_present []).2.2 rfl⟩

/-- C10: GET /api/metrics converts the `period` field to its ISO-8601
string form exactly when the stored value is a date or a datetime; a
period stored in any other form is passed through unchanged. -/
theorem period_formatting_conditional (i : Doc) (v : Value)
    (h : getKey i "period" = some v) :
    (isDateLike v = false → getKey (metricRow i) "period" = some v) ∧
    (∀ d, v = Value.vDate d →
      getKey (metricRow i) "period" = some (.vStr d.isoformat)) ∧
    (∀ t, v = Value.vDatetime t →
      getKey (metricRow i) "period" = some (.vStr t.isoformat)) := by
  have hfix : getKey (fixId i) "period" = some v := by
    rw [getKey_fixId_other i "period" (by decide)]; exact h
  refine ⟨?_, ?_, ?_⟩
  · intro hd
    simp [metricRow, hfix, hd]
  · rintro d rfl
    simp [metricRow, hfix, isDateLike, isoformatValue, getKey_setKey_self]
  · rintro t rfl
    simp [metricRow, hfix, isDateLike, isoformatValue, getKey_setKey_self]

/-- Witness for C10: a string-valued period passes through unchanged; a
date-valued period is ISO-formatted. -/
theorem period_formatting_conditional_witness :
    getKey (metricRow [("period", Value.vStr "2024-01")]) "period" =
      some (Value.vStr "2024-01") ∧
    getKey (metricRow [("period", Value.vDate ⟨2024, 1, 2⟩)]) "period" =
      some (Value.vStr (PyDate.isoformat ⟨2024, 1, 2⟩)) :=
  ⟨(period_formatting_conditional [("period", Value.vStr "2024-01")]
      (Value.vStr "2024-01") (by decide)).1 (by decide),
   (period_formatting_conditional [("period", Value.vDate ⟨2024, 1, 2⟩)]
      (Value.vDate ⟨2024, 1, 2⟩) (by decide)).2.1 ⟨2024, 1, 2⟩ rfl⟩

/-- C1 (code bug): `MetricIn` and `PredictIn` in `main.py` declare no
`ge=0` bound, so a body with `sales = -1` passes request validation,
the POST /api/metrics pipeline succeeds, and a record with negative
`sales` is inserted into the "metric" collection — while
`Schemas.Metric`, the schema `schemas.py` documents as the validation
model for that collection, rejects the same body with a 422. -/
theorem negative_metric_reaches_storage :
    (MetricIn.validate ⟨some ⟨2024, 1, 1⟩, some (-1), some 0, some 0⟩ =
      .ok ⟨⟨2024, 1, 1⟩, -1, 0, 0⟩) ∧
    (PredictIn.validate ⟨some ⟨2024, 1, 1⟩, some (-1), some 0, some 0⟩ =
      .ok ⟨⟨2024, 1, 1⟩, -1, 0, 0⟩) ∧
    (∃ resp st',
      create_metric_route (some ())
          ⟨some ⟨2024, 1, 1⟩, some (-1), some 0, some 0⟩ ⟨[], 0⟩ =
        .ok (resp, st') ∧
      ∃ d ∈ collDocs st' "metric", getKey d "sales" = some (.vRat (-1))) ∧
    (Schemas.Metric.validate ⟨some ⟨2024, 1, 1⟩, some (-1), some 0, some 0⟩ =
      .error ⟨422, "sales must be greater than or equal to 0"⟩) := by
  refine ⟨rfl, rfl, ⟨_, _, rfl, ?_⟩, rfl⟩
  decide
